import Mathlib

/-!
Shallow embedding of the taxifare-website core (`src/app.py`): the location
resolver (`geocode_address`, `get_address_suggestions`), the search-button
handlers that write the session state, and the fare-prediction request
handler. The external geocoding provider and the prediction endpoint are
modelled as oracle parameters; the network calls issued by the code are
tracked explicitly so that "no network call" claims are statable.
Machine floats are modelled as exact rationals.
-/

namespace Taxifare

/-- A geocoding result as produced by the provider: `location.latitude`,
`location.longitude`, `location.address` in `app.py`. -/
structure Loc where
  lat : ℚ
  lon : ℚ
  address : String
deriving DecidableEq

/-- One reply of the geocoding provider to a single `geolocator.geocode`
call: a normal return (possibly without a result), or one of the exception
kinds the code distinguishes (`GeocoderTimedOut`, `ConnectionError`, or any
other exception carrying a message). -/
inductive GeoReply where
  | ok (loc : Option Loc)
  | timedOut
  | connErr
  | exn (msg : String)
deriving DecidableEq

/-- The geocoding provider as an oracle mapping each query string to a
reply. -/
abbrev Provider := String → GeoReply

/-- The serviceable-area check of `app.py` lines 66 and 110:
`40.5 <= lat <= 41.0 and -74.3 <= lon <= -73.7`. -/
def inBox (lat lon : ℚ) : Bool :=
  decide (40.5 ≤ lat) && decide (lat ≤ 41.0) &&
  decide (-74.3 ≤ lon) && decide (lon ≤ -73.7)

/-- `List Char` core of `pyStrip`: drop whitespace from both ends. -/
def stripList (cs : List Char) : List Char :=
  ((cs.dropWhile Char.isWhitespace).reverse.dropWhile Char.isWhitespace).reverse

/-- Python's `str.strip()` (whitespace from both ends), written over the
character list so that it evaluates by reduction. -/
def pyStrip (s : String) : String :=
  String.mk (stripList s.data)

/-- The ordered query reformulations of `geocode_address` (lines 50-55):
NYC-qualified variants first, the raw text last. -/
def nycQueries (address : String) : List String :=
  [ address ++ ", New York City, USA"
  , address ++ ", Manhattan, New York, USA"
  , address ++ ", NYC"
  , address ]

/-- Control-flow outcome of `geocode_address`: the returned dict (`found`),
the `return None` after the loop (`notFound`), or one of the except
branches (each of which also returns `None`, after messaging). -/
inductive GeocodeOutcome where
  | found (loc : Loc)
  | notFound
  | errTimeout
  | errConn
  | errOther (msg : String)
deriving DecidableEq

/-- Result of one `geocode_address` run: its outcome plus the queries it
actually sent to the provider. -/
structure GeoRun where
  outcome : GeocodeOutcome
  calls : List String
deriving DecidableEq

/-- The `for query in queries` loop of `geocode_address` (lines 57-72): an
exception anywhere aborts into the matching except branch; a returned
candidate is surfaced only if it passes the bounding-box check, otherwise
the loop continues with the next query; an exhausted loop yields `None`. -/
def geocodeLoop (p : Provider) : List String → GeoRun
  | [] => ⟨.notFound, []⟩
  | q :: rest =>
    match p q with
    | .timedOut => ⟨.errTimeout, [q]⟩
    | .connErr => ⟨.errConn, [q]⟩
    | .exn m => ⟨.errOther m, [q]⟩
    | .ok none =>
      let r := geocodeLoop p rest
      ⟨r.outcome, q :: r.calls⟩
    | .ok (some loc) =>
      if inBox loc.lat loc.lon then ⟨.found loc, [q]⟩
      else
        let r := geocodeLoop p rest
        ⟨r.outcome, q :: r.calls⟩

/-- `geocode_address` (lines 40-88). The guard of lines 42-43
(`if not address or len(address.strip()) < 2: return None`) short-circuits
before any provider call; otherwise the query ladder runs. -/
def geocode_address (p : Provider) (address : String) : GeoRun :=
  if address = "" ∨ (pyStrip address).length < 2 then ⟨.notFound, []⟩
  else geocodeLoop p (nycQueries address)

/-- Bool-valued "the needle occurs as a contiguous run of the haystack",
modelling Python's `in` on strings (used on lowercased messages,
line 84). -/
def hasInfix (needle : List Char) : List Char → Bool
  | [] => needle.isEmpty
  | c :: t => needle.isPrefixOf (c :: t) || hasInfix needle t

/-- The user-facing messages the geocoding side of the app can emit; one
constructor per distinct `st.warning` / `st.error` / `st.success` call site
(lines 76, 79, 85, 87, 177, 180 and the dropoff twins). -/
inductive Msg where
  | geocodeTimedOut
  | geocodeUnavailable
  | cannotConnect
  | geocodeError (msg : String)
  | foundCoords (lat lon : ℚ)
  | addressNotFound
deriving DecidableEq

/-- The messages `geocode_address` itself emits on each outcome
(lines 75-88): the timeout warning, the unavailable error, and for a
generic exception either the cannot-connect error (when the lowercased
message mentions a connection failure) or the generic geocoding warning. -/
def GeocodeOutcome.msgs : GeocodeOutcome → List Msg
  | .errTimeout => [.geocodeTimedOut]
  | .errConn => [.geocodeUnavailable]
  | .errOther m =>
    if hasInfix "connection".data m.toLower.data ||
        hasInfix "max retries".data m.toLower.data then [.cannotConnect]
    else [.geocodeError m]
  | _ => []

/-- The value the caller sees (`coords` in the handlers): the returned
dict on success, `None` on every other path. -/
def GeocodeOutcome.toCoords : GeocodeOutcome → Option Loc
  | .found loc => some loc
  | _ => none

/-- The per-session location state of lines 128-139: two coordinate pairs
and the two address text fields. -/
structure Session where
  pickup_lat : ℚ
  pickup_lon : ℚ
  dropoff_lat : ℚ
  dropoff_lon : ℚ
  pickup_address_text : String
  dropoff_address_text : String
deriving DecidableEq

/-- The session defaults of lines 128-139. -/
def initialSession : Session :=
  { pickup_lat := 40.783282
  , pickup_lon := -73.950655
  , dropoff_lat := 40.769802
  , dropoff_lon := -73.984365
  , pickup_address_text := ""
  , dropoff_address_text := "" }

/-- The "Search Pickup" button handler (lines 172-180): run
`geocode_address`, and on success overwrite `pickup_lat` / `pickup_lon`
and report the found coordinates; on `None` report address-not-found.
The second component collects every message shown to the user, the
resolver's own messages included. -/
def searchPickup (p : Provider) (s : Session) (address : String) :
    Session × List Msg :=
  let r := geocode_address p address
  match r.outcome.toCoords with
  | some loc =>
    ({ s with pickup_lat := loc.lat, pickup_lon := loc.lon },
      r.outcome.msgs ++ [Msg.foundCoords loc.lat loc.lon])
  | none => (s, r.outcome.msgs ++ [Msg.addressNotFound])

/-- The "Search Dropoff" button handler (lines 226-234), the dropoff twin
of `searchPickup`. -/
def searchDropoff (p : Provider) (s : Session) (address : String) :
    Session × List Msg :=
  let r := geocode_address p address
  match r.outcome.toCoords with
  | some loc =>
    ({ s with dropoff_lat := loc.lat, dropoff_lon := loc.lon },
      r.outcome.msgs ++ [Msg.foundCoords loc.lat loc.lon])
  | none => (s, r.outcome.msgs ++ [Msg.addressNotFound])

/-- One autocomplete suggestion as returned by
`get_address_suggestions` (lines 111-115). -/
structure Suggestion where
  display_name : String
  lat : ℚ
  lon : ℚ
deriving DecidableEq

/-- Result of one `get_address_suggestions` run: the suggestion list plus
the queries actually sent to the provider. -/
structure SuggestRun where
  suggestions : List Suggestion
  calls : List String
deriving DecidableEq

/-- `get_address_suggestions` (lines 90-123): the guard
`if not query or len(query) < 3: return []` short-circuits before any
provider call; otherwise a single NYC-biased `exactly_one=True` query is
issued, a candidate is surfaced only if it passes the bounding-box check,
and every exception is swallowed into the final `return []`. -/
def get_address_suggestions (p : Provider) (query : String) : SuggestRun :=
  if query = "" ∨ query.length < 3 then ⟨[], []⟩
  else
    match p (query ++ ", New York City") with
    | .ok (some loc) =>
      if inBox loc.lat loc.lon then
        ⟨[⟨loc.address, loc.lat, loc.lon⟩], [query ++ ", New York City"]⟩
      else ⟨[], [query ++ ", New York City"]⟩
    | .ok none => ⟨[], [query ++ ", New York City"]⟩
    | .timedOut => ⟨[], [query ++ ", New York City"]⟩
    | .connErr => ⟨[], [query ++ ", New York City"]⟩
    | .exn _ => ⟨[], [query ++ ", New York City"]⟩

/-- A JSON value as far as the fare handler inspects one: a number, a
string, or `null` (Python `None`). -/
inductive Json where
  | num (val : ℚ)
  | str (s : String)
  | null
deriving DecidableEq

/-- The decoded 2xx response body: the top-level JSON object. -/
abbrev FareData := List (String × Json)

/-- Python `data.get(k)`: the stored value when the key is present. -/
def dictGet (d : FareData) (k : String) : Option Json :=
  (d.find? (fun kv => kv.1 == k)).map (fun kv => kv.2)

/-- Line 287: `fare = data.get('fare', data.get('fare_amount', None))`.
A stored JSON `null` is Python `None`, so it is returned as-is when its
key is present (the fallback is not consulted). -/
def extractFare (d : FareData) : Json :=
  match dictGet d "fare" with
  | some v => v
  | none =>
    match dictGet d "fare_amount" with
    | some v => v
    | none => Json.null

/-- Python `round(x, 2)` as used on line 290, over exact rationals. -/
def roundTo2 (q : ℚ) : ℚ :=
  ((round (q * 100) : ℤ) : ℚ) / 100

/-- Transport result of the prediction GET (lines 284-286): a decoded 2xx
body, or any `requests.exceptions.RequestException` (timeout, connection
failure, non-2xx via `raise_for_status`, malformed JSON). -/
inductive HttpResult where
  | ok (data : FareData)
  | transportErr (msg : String)
deriving DecidableEq

/-- Outward outcome of the fare prediction handler: the displayed rounded
fare, the unexpected-response error carrying the raw payload, the
request-failed error, or an exception escaping the handler (the `except`
clause catches only `RequestException`, so e.g. the `TypeError` raised by
`round` on a non-numeric value propagates). -/
inductive FareOutcome where
  | fareDisplayed (fare : ℚ)
  | unexpected (data : FareData)
  | requestFailed (msg : String)
  | raised (msg : String)
deriving DecidableEq

/-- The fare-prediction request handler (lines 283-295): on a 2xx response
extract `fare` else `fare_amount`; display `round(fare, 2)` when the
extracted value is a number; show the unexpected-response error when it is
absent or `None`; `round` on any other value raises an uncaught
`TypeError`. Transport failures surface as the single request-failed
message. -/
def request_fare (r : HttpResult) : FareOutcome :=
  match r with
  | .transportErr msg => .requestFailed msg
  | .ok data =>
    match extractFare data with
    | .null => .unexpected data
    | .num q => .fareDisplayed (roundTo2 q)
    | .str _ => .raised "TypeError"

/-- The Times Square candidate of the spec's worked scenario. -/
def tsLoc : Loc :=
  ⟨40.7580, -73.9855, "Times Square, Manhattan"⟩

/-- A provider that answers every query with the Times Square candidate. -/
def tsProvider : Provider := fun _ => .ok (some tsLoc)

/-- A provider whose every call times out. -/
def timeoutProvider : Provider := fun _ => .timedOut

/-- A provider whose every call fails with a connection error. -/
def connFailProvider : Provider := fun _ => .connErr

/-- A provider that always answers normally with no candidate. -/
def emptyProvider : Provider := fun _ => .ok none

/-- A provider that always answers with a candidate outside the
serviceable box (Boston). -/
def bostonProvider : Provider := fun _ => .ok (some ⟨42.3601, -71.0589, "Boston"⟩)

/-- The session state as it stands when the search button fires with the
text "Times Square" typed: line 158 has already copied the typed text into
`pickup_address_text`. -/
def typedSession : Session :=
  { initialSession with pickup_address_text := "Times Square" }

/-- Spec-side selector, written from the spec's words for the refinement
comparison of the query ladder: the candidate a single reply surfaces,
namely the returned location when it passes the bounding-box validation,
and nothing otherwise. -/
def okInBox (r : GeoReply) : Option Loc :=
  match r with
  | .ok (some loc) => if inBox loc.lat loc.lon then some loc else none
  | _ => none

/-- A reply that is a normal return (no exception raised). -/
def isOkReply (r : GeoReply) : Bool :=
  match r with
  | .ok _ => true
  | _ => false

theorem inBox_ts : inBox tsLoc.lat tsLoc.lon = true := by
  norm_num [inBox, tsLoc]

theorem inBox_boston : inBox (42.3601 : ℚ) (-71.0589) = false := by
  norm_num [inBox]

theorem geocode_ts :
    geocode_address tsProvider "Times Square" =
      ⟨.found tsLoc, ["Times Square, New York City, USA"]⟩ := by
  unfold geocode_address
  rw [if_neg (by decide)]
  simp [nycQueries, geocodeLoop, tsProvider, inBox_ts]

/-- Any candidate the query loop surfaces passed the bounding-box check and
was produced by the provider for one of the attempted queries. -/
theorem geocodeLoop_found_inBox (p : Provider) (qs : List String) (loc : Loc)
    (h : (geocodeLoop p qs).outcome = .found loc) :
    inBox loc.lat loc.lon = true ∧ ∃ q ∈ qs, p q = .ok (some loc) := by
  induction qs with
  | nil => simp [geocodeLoop] at h
  | cons q rest ih =>
    simp only [geocodeLoop] at h
    split at h
    · simp at h
    · simp at h
    · simp at h
    · simp only at h
      obtain ⟨hbox, q', hq', heq⟩ := ih h
      exact ⟨hbox, q', List.mem_cons_of_mem _ hq', heq⟩
    · rename_i loc2 hp
      split at h
      · rename_i hbox
        simp only [GeocodeOutcome.found.injEq] at h
        subst h
        exact ⟨hbox, q, List.mem_cons_self q rest, hp⟩
      · simp only at h
        obtain ⟨hb, q', hq', heq⟩ := ih h
        exact ⟨hb, q', List.mem_cons_of_mem _ hq', heq⟩

/-- When no attempted query raises, the loop computes exactly the first
in-box candidate of the query sequence (`List.findSome?`), and exhausts to
`None` exactly when no query yields an in-box candidate. -/
theorem geocodeLoop_firstMatch (p : Provider) (qs : List String)
    (hok : ∀ q ∈ qs, isOkReply (p q) = true) :
    (∀ loc, ((geocodeLoop p qs).outcome = .found loc ↔
      qs.findSome? (fun q => okInBox (p q)) = some loc)) ∧
    ((geocodeLoop p qs).outcome = .notFound ↔
      qs.findSome? (fun q => okInBox (p q)) = none) := by
  induction qs with
  | nil => simp [geocodeLoop]
  | cons q rest ih =>
    have hq := hok q (List.mem_cons_self q rest)
    have hrest : ∀ q' ∈ rest, isOkReply (p q') = true :=
      fun q' h' => hok q' (List.mem_cons_of_mem _ h')
    obtain ⟨ih1, ih2⟩ := ih hrest
    cases hp : p q with
    | ok oloc =>
      cases oloc with
      | none =>
        simp only [geocodeLoop, hp, List.findSome?_cons, okInBox]
        exact ⟨ih1, ih2⟩
      | some loc2 =>
        by_cases hbox : inBox loc2.lat loc2.lon = true
        · simp [geocodeLoop, hp, hbox, List.findSome?_cons, okInBox]
        · simp only [geocodeLoop, hp, List.findSome?_cons, okInBox,
            if_neg hbox]
          exact ⟨ih1, ih2⟩
    | timedOut => rw [hp] at hq; simp [isOkReply] at hq
    | connErr => rw [hp] at hq; simp [isOkReply] at hq
    | exn m => rw [hp] at hq; simp [isOkReply] at hq

/-- C1: every coordinate pair surfaced by the resolver — the single best
result of `geocode_address` as well as every candidate in
`get_address_suggestions`'s list — lies in the serviceable bounding box
`40.5 ≤ lat ≤ 41.0`, `-74.3 ≤ lon ≤ -73.7`; and when the provider has no
in-box candidate at all, `geocode_address` cannot return a found location
and the suggestion list is empty, so an out-of-box candidate is never
surfaced. -/
theorem resolver_bounding_box (p : Provider) (a : String) (loc : Loc) :
    ((geocode_address p a).outcome = .found loc →
      inBox loc.lat loc.lon = true) ∧
    (∀ s ∈ (get_address_suggestions p a).suggestions,
      inBox s.lat s.lon = true) ∧
    ((∀ q l, p q = .ok (some l) → inBox l.lat l.lon = false) →
      (geocode_address p a).outcome ≠ .found loc ∧
      (get_address_suggestions p a).suggestions = []) := by
  have hfound : (geocode_address p a).outcome = .found loc →
      inBox loc.lat loc.lon = true ∧ ∃ q, p q = .ok (some loc) := by
    intro h
    unfold geocode_address at h
    split at h
    · simp at h
    · obtain ⟨hbox, q, _, heq⟩ := geocodeLoop_found_inBox p _ loc h
      exact ⟨hbox, q, heq⟩
  have hsugg : ∀ s ∈ (get_address_suggestions p a).suggestions,
      inBox s.lat s.lon = true ∧ ∃ l, (∃ q, p q = .ok (some l)) ∧
        s.lat = l.lat ∧ s.lon = l.lon := by
    intro s hs
    unfold get_address_suggestions at hs
    split at hs
    · simp at hs
    · split at hs
      · rename_i loc2 hp
        split at hs
        · rename_i hbox
          simp only [List.mem_singleton] at hs
          subst hs
          exact ⟨hbox, loc2, ⟨_, hp⟩, rfl, rfl⟩
        · simp at hs
      · simp at hs
      · simp at hs
      · simp at hs
      · simp at hs
  refine ⟨fun h => (hfound h).1, fun s hs => (hsugg s hs).1, ?_⟩
  intro hout
  constructor
  · intro h
    obtain ⟨hbox, q, heq⟩ := hfound h
    rw [hout q loc heq] at hbox
    exact Bool.false_ne_true hbox
  · rcases hh : (get_address_suggestions p a).suggestions with _ | ⟨s, tl⟩
    · rfl
    · obtain ⟨hbox, l, ⟨q, hq⟩, hlat, hlon⟩ :=
        hsugg s (by rw [hh]; exact List.mem_cons_self s tl)
      rw [hlat, hlon, hout q l hq] at hbox
      exact absurd hbox Bool.false_ne_true

/-- C1 witness: the invariant applied to a provider answering with the
Times Square candidate, and to a provider answering only with an
out-of-box (Boston) candidate. -/
theorem resolver_bounding_box_witness :
    inBox tsLoc.lat tsLoc.lon = true ∧
    (get_address_suggestions bostonProvider "Times Square").suggestions = [] := by
  constructor
  · exact (resolver_bounding_box tsProvider "Times Square" tsLoc).1
      (by rw [geocode_ts])
  · refine ((resolver_bounding_box bostonProvider "Times Square" tsLoc).2.2
      ?_).2
    intro q l h
    simp only [bostonProvider, GeoReply.ok.injEq, Option.some.injEq] at h
    rw [← h]
    exact inBox_boston

/-- C2: with at least two characters of trimmed input and a provider that
raises no exception on the attempted queries, `geocode_address` works
through the ordered reformulation ladder — NYC-qualified variants first,
the raw text last — and its result is exactly the first in-box candidate
of that sequence (`List.findSome?`); candidates failing the box check are
skipped, and an exhausted ladder yields `None`. -/
theorem resolve_query_ladder (p : Provider) (a : String)
    (hlen : 2 ≤ (pyStrip a).length)
    (hok : ∀ q ∈ nycQueries a, isOkReply (p q) = true) :
    nycQueries a = [a ++ ", New York City, USA",
      a ++ ", Manhattan, New York, USA", a ++ ", NYC", a] ∧
    (∀ loc, ((geocode_address p a).outcome = .found loc ↔
      (nycQueries a).findSome? (fun q => okInBox (p q)) = some loc)) ∧
    ((geocode_address p a).outcome = .notFound ↔
      (nycQueries a).findSome? (fun q => okInBox (p q)) = none) := by
  have hne : ¬(a = "" ∨ (pyStrip a).length < 2) := by
    rintro (rfl | hlt)
    · exact absurd hlen (by decide)
    · omega
  unfold geocode_address
  rw [if_neg hne]
  exact ⟨rfl, (geocodeLoop_firstMatch p _ hok).1,
    (geocodeLoop_firstMatch p _ hok).2⟩

/-- C2 witness: with the constant Times Square provider, the resolver's
result coincides with the first in-box candidate of the ladder. -/
theorem resolve_query_ladder_witness :
    (nycQueries "Times Square").findSome?
      (fun q => okInBox (tsProvider q)) = some tsLoc := by
  have h := resolve_query_ladder tsProvider "Times Square" (by decide)
    (fun q _ => rfl)
  exact (h.2.1 tsLoc).mp (by rw [geocode_ts])

/-- C9: input whose trimmed form has fewer than 2 characters makes
`geocode_address` return `None` without issuing any provider call. -/
theorem resolve_short_input_no_call (p : Provider) (a : String)
    (h : (pyStrip a).length < 2) :
    geocode_address p a = ⟨.notFound, []⟩ := by
  unfold geocode_address
  rw [if_pos (Or.inr h)]

/-- C9 witness: the empty string and the single character "a". -/
theorem resolve_short_input_no_call_witness :
    geocode_address tsProvider "" = ⟨.notFound, []⟩ ∧
    geocode_address tsProvider "a" = ⟨.notFound, []⟩ :=
  ⟨resolve_short_input_no_call tsProvider "" (by decide),
   resolve_short_input_no_call tsProvider "a" (by decide)⟩

/-- C10: for every input and provider behaviour the autocomplete returns at
most one suggestion (it issues at most one `exactly_one` query), so the
spec's allowance of up to 5 candidates is never used. -/
theorem suggestions_at_most_one (p : Provider) (q : String) :
    (get_address_suggestions p q).suggestions.length ≤ 1 ∧
    (get_address_suggestions p q).calls.length ≤ 1 := by
  unfold get_address_suggestions
  split
  · simp
  · rcases p (q ++ ", New York City") with (_ | loc) | _ | _ | m
    · simp
    · by_cases hbox : inBox loc.lat loc.lon = true
      · simp [hbox]
      · simp [hbox]
    · simp
    · simp
    · simp

/-- C10 witness: the bound at a concrete input and provider. -/
theorem suggestions_at_most_one_witness :
    (get_address_suggestions tsProvider "Times Square").suggestions.length ≤ 1 ∧
    (get_address_suggestions tsProvider "Times Square").calls.length ≤ 1 :=
  suggestions_at_most_one tsProvider "Times Square"

/-- C8: the autocomplete is total: input shorter than 3 characters yields
the empty run with no provider call, and every provider failure — timeout,
connection error, or any other exception — is swallowed into an empty
suggestion list; the return type has no raising path, so it never
raises. -/
theorem suggest_total_and_silent (p : Provider) (q : String) :
    (q.length < 3 → get_address_suggestions p q = ⟨[], []⟩) ∧
    (p (q ++ ", New York City") = .timedOut →
      (get_address_suggestions p q).suggestions = []) ∧
    (p (q ++ ", New York City") = .connErr →
      (get_address_suggestions p q).suggestions = []) ∧
    (∀ m, p (q ++ ", New York City") = .exn m →
      (get_address_suggestions p q).suggestions = []) := by
  refine ⟨?_, ?_, ?_, ?_⟩
  · intro h
    unfold get_address_suggestions
    rw [if_pos (Or.inr h)]
  · intro h
    unfold get_address_suggestions
    split
    · rfl
    · rw [h]
  · intro h
    unfold get_address_suggestions
    split
    · rfl
    · rw [h]
  · intro m h
    unfold get_address_suggestions
    split
    · rfl
    · rw [h]

/-- C8 witness: the short input "ab", and the three failure kinds at a
long-enough input. -/
theorem suggest_total_and_silent_witness :
    get_address_suggestions tsProvider "ab" = ⟨[], []⟩ ∧
    (get_address_suggestions timeoutProvider "Times Square").suggestions = [] ∧
    (get_address_suggestions connFailProvider "Times Square").suggestions = [] ∧
    (get_address_suggestions (fun _ => .exn "boom") "Times Square").suggestions = [] :=
  ⟨(suggest_total_and_silent tsProvider "ab").1 (by decide),
   (suggest_total_and_silent timeoutProvider "Times Square").2.1 rfl,
   (suggest_total_and_silent connFailProvider "Times Square").2.2.1 rfl,
   (suggest_total_and_silent (fun _ => .exn "boom") "Times Square").2.2.2
     "boom" rfl⟩

/-- C3 fails on the code: in the spec's scenario — pickup text
"Times Square", provider returning the single candidate
(40.7580, -73.9855, "Times Square, Manhattan") — the handler overwrites
the pickup coordinates but never writes the resolved label into the
session, so the session pickup Location is not the full resolved
triple. -/
theorem search_label_not_replaced_cex :
    (searchPickup tsProvider typedSession "Times Square").1.pickup_lat
        = 40.7580 ∧
    (searchPickup tsProvider typedSession "Times Square").1.pickup_lon
        = -73.9855 ∧
    (searchPickup tsProvider typedSession "Times Square").1.pickup_address_text
        ≠ "Times Square, Manhattan" := by
  have h : (searchPickup tsProvider typedSession "Times Square").1 =
      { typedSession with pickup_lat := tsLoc.lat, pickup_lon := tsLoc.lon } := by
    simp [searchPickup, geocode_ts, GeocodeOutcome.toCoords]
  rw [h]
  exact ⟨rfl, rfl, by decide⟩

/-- C3 amended: when address resolution succeeds, the handler replaces the
corresponding session coordinates with the resolved ones, but the label
(`pickup_address_text` / `dropoff_address_text`) keeps its prior value —
only the coordinates of the Location are overwritten, not the label. -/
theorem search_replaces_coords_only (p : Provider) (s : Session)
    (a : String) (loc : Loc)
    (h : (geocode_address p a).outcome = .found loc) :
    (searchPickup p s a).1 =
      { s with pickup_lat := loc.lat, pickup_lon := loc.lon } ∧
    (searchPickup p s a).1.pickup_address_text = s.pickup_address_text ∧
    (searchDropoff p s a).1 =
      { s with dropoff_lat := loc.lat, dropoff_lon := loc.lon } ∧
    (searchDropoff p s a).1.dropoff_address_text = s.dropoff_address_text := by
  refine ⟨?_, ?_, ?_, ?_⟩ <;>
    simp [searchPickup, searchDropoff, h, GeocodeOutcome.toCoords]

/-- C3 amended witness: the scenario itself. -/
theorem search_replaces_coords_only_witness :
    (searchPickup tsProvider typedSession "Times Square").1 =
      { typedSession with pickup_lat := tsLoc.lat, pickup_lon := tsLoc.lon } :=
  (search_replaces_coords_only tsProvider typedSession "Times Square" tsLoc
    (by rw [geocode_ts])).1

/-- C4: the fare is extracted from the key `fare` when present, otherwise
from `fare_amount` (so `fare` wins when both are present), and the response
with only `fare_amount: 9.1` displays the fare 9.1. -/
theorem fare_key_preference (d : FareData) (v : Json) :
    (dictGet d "fare" = some v → extractFare d = v) ∧
    (dictGet d "fare" = none →
      extractFare d = (dictGet d "fare_amount").getD Json.null) ∧
    request_fare (.ok [("fare_amount", Json.num 9.1)]) =
      .fareDisplayed 9.1 := by
  refine ⟨?_, ?_, ?_⟩
  · intro h
    unfold extractFare
    rw [h]
  · intro h
    unfold extractFare
    rw [h]
    cases dictGet d "fare_amount" <;> simp [Option.getD]
  · have hr : roundTo2 (9.1 : ℚ) = 9.1 := by
      norm_num [roundTo2, round_eq]
    calc request_fare (.ok [("fare_amount", Json.num 9.1)])
        = .fareDisplayed (roundTo2 9.1) := rfl
      _ = .fareDisplayed 9.1 := by rw [hr]

/-- C4 witness: preference when both keys are present. -/
theorem fare_key_preference_witness :
    extractFare [("fare", Json.num 5), ("fare_amount", Json.num 7)] =
      Json.num 5 :=
  (fare_key_preference [("fare", Json.num 5), ("fare_amount", Json.num 7)]
    (Json.num 5)).1 rfl

/-- C5 fails on the code: a 2xx response whose extracted fare value is
present but non-numeric — here the string "n/a" — does not produce the
unexpected-response condition; `round` raises a `TypeError` that the
`except requests.exceptions.RequestException` clause does not catch. -/
theorem nonnumeric_fare_raises_cex :
    request_fare (.ok [("fare", Json.str "n/a")]) = .raised "TypeError" ∧
    request_fare (.ok [("fare", Json.str "n/a")]) ≠
      .unexpected [("fare", Json.str "n/a")] := by
  exact ⟨by decide, by decide⟩

/-- C5 amended: when neither `fare` nor `fare_amount` is present, or the
extracted value is JSON `null` (Python `None`), the handler reports the
unexpected-response condition carrying the raw payload; in particular the
response with only `other: 1` yields exactly that condition. A present
non-null, non-numeric value instead raises an uncaught `TypeError`. -/
theorem unexpected_response_on_missing_fare (d : FareData) :
    (extractFare d = Json.null → request_fare (.ok d) = .unexpected d) ∧
    request_fare (.ok [("other", Json.num 1)]) =
      .unexpected [("other", Json.num 1)] := by
  constructor
  · intro h
    have hm : request_fare (.ok d) =
        match extractFare d with
        | Json.null => .unexpected d
        | Json.num q => .fareDisplayed (roundTo2 q)
        | Json.str _ => .raised "TypeError" := rfl
    rw [hm, h]
  · rfl

/-- C5 amended witness: the empty payload. -/
theorem unexpected_response_on_missing_fare_witness :
    request_fare (.ok []) = .unexpected [] :=
  (unexpected_response_on_missing_fare []).1 rfl

/-- C6: the displayed fare is the numeric fare rounded to 2 decimal places
(a 2-decimal value within 1/200 of the raw fare), and the response
`fare: 12.345` displays 12.35. -/
theorem fare_rounded_two_decimals (q : ℚ) :
    request_fare (.ok [("fare", Json.num q)]) =
      .fareDisplayed (roundTo2 q) ∧
    (∃ n : ℤ, roundTo2 q = (n : ℚ) / 100) ∧
    |q - roundTo2 q| ≤ 1 / 200 ∧
    request_fare (.ok [("fare", Json.num 12.345)]) =
      .fareDisplayed 12.35 := by
  refine ⟨rfl, ⟨round (q * 100), rfl⟩, ?_, ?_⟩
  · have habs : |q * 100 - (round (q * 100) : ℚ)| ≤ 1 / 2 :=
      abs_sub_round (q * 100)
    have hrw : q - roundTo2 q = (q * 100 - (round (q * 100) : ℚ)) / 100 := by
      unfold roundTo2
      ring
    rw [hrw, abs_div, abs_of_pos (by norm_num : (0:ℚ) < 100)]
    linarith
  · have hr : roundTo2 (12.345 : ℚ) = 12.35 := by
      norm_num [roundTo2, round_eq]
    calc request_fare (.ok [("fare", Json.num 12.345)])
        = .fareDisplayed (roundTo2 12.345) := rfl
      _ = .fareDisplayed 12.35 := by rw [hr]

/-- C6 witness: the concrete rounding scenario. -/
theorem fare_rounded_two_decimals_witness :
    request_fare (.ok [("fare", Json.num 12.345)]) =
      .fareDisplayed 12.35 :=
  (fare_rounded_two_decimals 12.345).2.2.2

/-- C7: the three outward failure conditions of the resolver — timeout,
provider unreachable, and no in-box match — each produce their own
distinct user-facing message sequence (pairwise different), and in every
one of them the handler returns normally with the session state intact. -/
theorem failure_kinds_distinct (p1 p2 p3 : Provider) (s : Session)
    (a : String)
    (h1 : (geocode_address p1 a).outcome = .errTimeout)
    (h2 : (geocode_address p2 a).outcome = .errConn)
    (h3 : (geocode_address p3 a).outcome = .notFound) :
    ((searchPickup p1 s a).2 = [Msg.geocodeTimedOut, Msg.addressNotFound] ∧
     (searchPickup p2 s a).2 = [Msg.geocodeUnavailable, Msg.addressNotFound] ∧
     (searchPickup p3 s a).2 = [Msg.addressNotFound]) ∧
    ((searchPickup p1 s a).2 ≠ (searchPickup p2 s a).2 ∧
     (searchPickup p1 s a).2 ≠ (searchPickup p3 s a).2 ∧
     (searchPickup p2 s a).2 ≠ (searchPickup p3 s a).2) ∧
    ((searchPickup p1 s a).1 = s ∧ (searchPickup p2 s a).1 = s ∧
     (searchPickup p3 s a).1 = s) := by
  have e1 : searchPickup p1 s a =
      (s, [Msg.geocodeTimedOut, Msg.addressNotFound]) := by
    simp [searchPickup, h1, GeocodeOutcome.toCoords, GeocodeOutcome.msgs]
  have e2 : searchPickup p2 s a =
      (s, [Msg.geocodeUnavailable, Msg.addressNotFound]) := by
    simp [searchPickup, h2, GeocodeOutcome.toCoords, GeocodeOutcome.msgs]
  have e3 : searchPickup p3 s a = (s, [Msg.addressNotFound]) := by
    simp [searchPickup, h3, GeocodeOutcome.toCoords, GeocodeOutcome.msgs]
  rw [e1, e2, e3]
  refine ⟨⟨rfl, rfl, rfl⟩, ⟨by simp, by simp, by simp⟩, rfl, rfl, rfl⟩

/-- C7 witness: a timing-out, an unreachable, and an empty-answering
provider at the same input produce the three distinct conditions. -/
theorem failure_kinds_distinct_witness :
    (searchPickup timeoutProvider initialSession "Times Square").2 ≠
      (searchPickup connFailProvider initialSession "Times Square").2 ∧
    (searchPickup timeoutProvider initialSession "Times Square").2 ≠
      (searchPickup emptyProvider initialSession "Times Square").2 ∧
    (searchPickup connFailProvider initialSession "Times Square").2 ≠
      (searchPickup emptyProvider initialSession "Times Square").2 :=
  (failure_kinds_distinct timeoutProvider connFailProvider emptyProvider
    initialSession "Times Square" (by decide) (by decide) (by decide)).2.1

end Taxifare
